import Mathlib

/-!
Shallow embedding of the quiz-solving FastAPI pipeline in `app.py`
(`src/main.py` of the repository), together with proofs about the
budget computation, the answer-derivation tiers, the submission-URL
resolution, the request/answer body merge, and the pipeline's
error paths.

Conventions of the embedding:
* Python/JSON values are modelled by the inductive type `PyVal`
  (dict, list, str, num, bool, None); Python `float`/`int` numbers are
  both modelled as rationals.
* Python dicts are modelled as insertion-ordered association lists with
  `pyGet` (first match) as lookup; `setKey` models `d[k] = v`
  (update in place if the key exists, else append), which coincides with
  CPython semantics on dicts, whose keys are unique.
* Fallible operations (base64 decode, UTF-8 decode, JSON parse) return
  `Option`; a raised-and-propagated exception is modelled by `Except`.
-/

set_option autoImplicit false

/-- Model of a Python/JSON value: `None`, `bool`, `int`/`float`, `str`,
`list`, `dict`. A number is an exact rational stored as a reduced
numerator/positive-denominator pair (decimal literals are exact, so
IEEE rounding of Python floats is not modelled; no claim involves it). -/
inductive PyVal where
  | null : PyVal
  | bool : Bool → PyVal
  | num : Int → Nat → PyVal
  | str : String → PyVal
  | list : List PyVal → PyVal
  | dict : List (String × PyVal) → PyVal

/-- Python truthiness (`bool(v)`): `None`, `False`, `0`, `""`, `[]`, `{}`
are falsy, everything else truthy. -/
def pyTruthy : PyVal → Bool
  | .null => false
  | .bool b => b
  | .num n _ => decide (n ≠ 0)
  | .str s => decide (s ≠ "")
  | .list xs => !xs.isEmpty
  | .dict kvs => !kvs.isEmpty

/-- Python `a or b`: `a` if truthy, else `b`. -/
def pyOr (a b : PyVal) : PyVal := if pyTruthy a then a else b

/-- Dict lookup `d[k]` / `d.get(k)` as an `Option`: first entry whose key
matches (keys are unique in genuine dicts). -/
def pyGet : List (String × PyVal) → String → Option PyVal
  | [], _ => none
  | (k', v) :: t, k => if k = k' then some v else pyGet t k

/-- Python `d.get(k)` (default `None`). -/
def pyGetD (d : List (String × PyVal)) (k : String) : PyVal :=
  (pyGet d k).getD .null

/-- Python `d[k] = v`: replace the value in place if the key is present,
else append the new entry at the end. -/
def setKey : List (String × PyVal) → String → PyVal → List (String × PyVal)
  | [], k, v => [(k, v)]
  | (k', v') :: t, k, v =>
      if k' = k then (k, v) :: t else (k', v') :: setKey t k v

/-- Python `{**a, **b}`: start from `a` and assign every entry of `b`
in order (so `b`'s values win on key collision). -/
def pyMerge (a b : List (String × PyVal)) : List (String × PyVal) :=
  b.foldl (fun d p => setKey d p.1 p.2) a

theorem pyGet_setKey (d : List (String × PyVal)) (k : String) (v : PyVal)
    (k' : String) :
    pyGet (setKey d k v) k' = if k' = k then some v else pyGet d k' := by
  induction d with
  | nil => simp [setKey, pyGet]
  | cons p t ih =>
      obtain ⟨k₀, v₀⟩ := p
      by_cases h : k₀ = k
      · subst h
        by_cases h' : k' = k₀ <;> simp [setKey, pyGet, h']
      · by_cases h' : k' = k₀
        · subst h'
          simp [setKey, pyGet, h, Ne.symm h]
        · simp [setKey, pyGet, h, h', ih]

theorem pyMerge_nil (a : List (String × PyVal)) : pyMerge a [] = a := rfl

theorem pyMerge_cons (a : List (String × PyVal)) (p : String × PyVal)
    (b : List (String × PyVal)) :
    pyMerge a (p :: b) = pyMerge (setKey a p.1 p.2) b := rfl

/-- Lookup in a merged dict: the last matching entry of `b` wins, and
absent that, the lookup falls through to `a`. -/
theorem pyGet_pyMerge (a b : List (String × PyVal)) (k : String) :
    pyGet (pyMerge a b) k =
      (pyGet b.reverse k).orElse (fun _ => pyGet a k) := by
  induction b generalizing a with
  | nil => simp [pyMerge_nil, pyGet]
  | cons p t ih =>
      obtain ⟨k₀, v₀⟩ := p
      rw [pyMerge_cons]
      rw [ih]
      have happ : ∀ (l₁ l₂ : List (String × PyVal)),
          pyGet (l₁ ++ l₂) k = (pyGet l₁ k).orElse (fun _ => pyGet l₂ k) := by
        intro l₁ l₂
        induction l₁ with
        | nil => simp [pyGet, Option.orElse]
        | cons q t' ih' =>
            obtain ⟨kq, vq⟩ := q
            by_cases h : k = kq <;> simp [pyGet, h, ih', Option.orElse]
      simp only [List.reverse_cons, happ]
      rw [pyGet_setKey]
      cases hgt : pyGet t.reverse k with
      | some v => simp [Option.orElse]
      | none =>
          by_cases h : k = k₀ <;> simp [pyGet, h, Option.orElse]

/-- If `k` does not occur among the keys of `d`, lookup returns `none`. -/
theorem pyGet_eq_none_of_not_mem (d : List (String × PyVal)) (k : String)
    (h : k ∉ d.map Prod.fst) : pyGet d k = none := by
  induction d with
  | nil => rfl
  | cons p t ih =>
      obtain ⟨k₀, v₀⟩ := p
      simp only [List.map_cons, List.mem_cons] at h
      push_neg at h
      simp [pyGet, h.1, ih h.2]

/-- With duplicate-free keys (true of every genuine Python dict), the
first match and the last match agree. -/
theorem pyGet_reverse_of_nodup (d : List (String × PyVal)) (k : String)
    (h : (d.map Prod.fst).Nodup) : pyGet d.reverse k = pyGet d k := by
  induction d with
  | nil => rfl
  | cons p t ih =>
      obtain ⟨k₀, v₀⟩ := p
      simp only [List.map_cons, List.nodup_cons] at h
      have happ : ∀ (l₁ l₂ : List (String × PyVal)),
          pyGet (l₁ ++ l₂) k = (pyGet l₁ k).orElse (fun _ => pyGet l₂ k) := by
        intro l₁ l₂
        induction l₁ with
        | nil => simp [pyGet, Option.orElse]
        | cons q t' ih' =>
            obtain ⟨kq, vq⟩ := q
            by_cases hq : k = kq <;> simp [pyGet, hq, ih', Option.orElse]
      rw [List.reverse_cons, happ, ih h.2]
      by_cases hk : k = k₀
      · subst hk
        rw [pyGet_eq_none_of_not_mem t k h.1]
        simp [pyGet, Option.orElse]
      · cases hgt : pyGet t k <;> simp [pyGet, hk, Option.orElse, hgt]

/-! ### Python string primitives -/

/-- ASCII whitespace as recognised by `str.strip()` (the unicode cases are
not needed by this development). -/
def pySpace (c : Char) : Bool :=
  (c == ' ') || (c == '\t') || (c == '\n') || (c == '\r') ||
  (c == '\x0b') || (c == '\x0c')

/-- Python `s.strip()`: drop leading and trailing whitespace. -/
def pyStrip (s : String) : String :=
  String.mk (((s.data.dropWhile pySpace).reverse.dropWhile pySpace).reverse)

/-- Python slicing `s[:n]` (by characters). -/
def strTake (s : String) (n : Nat) : String := String.mk (s.data.take n)

/-! ### `base64.b64decode` -/

/-- Value of a character in the standard base64 alphabet. -/
def b64Val (c : Char) : Option Nat :=
  if 'A' ≤ c ∧ c ≤ 'Z' then some (c.toNat - 65)
  else if 'a' ≤ c ∧ c ≤ 'z' then some (c.toNat - 97 + 26)
  else if '0' ≤ c ∧ c ≤ '9' then some (c.toNat - 48 + 52)
  else if c = '+' then some 62
  else if c = '/' then some 63
  else none

/-- Reassemble 6-bit groups into bytes (a trailing group of 2 or 3
sextets yields 1 or 2 bytes, as in `binascii`). -/
def b64SextetsToBytes : List Nat → List Nat
  | a :: b :: c :: d :: rest =>
      (a * 4 + b / 16) :: ((b % 16) * 16 + c / 4) :: ((c % 4) * 64 + d) ::
        b64SextetsToBytes rest
  | [a, b] => [a * 4 + b / 16]
  | [a, b, c] => [a * 4 + b / 16, (b % 16) * 16 + c / 4]
  | _ => []

/-- Model of `base64.b64decode(s)` for a `str` argument (the default
non-validating mode): reject non-ASCII input, discard characters outside
the alphabet, require padding to a multiple of four, and decode. -/
def pyB64Decode (s : String) : Option (List Nat) :=
  if s.data.any (fun c => 128 ≤ c.toNat) then none
  else
    let cs := s.data.filter (fun c => (b64Val c).isSome || (c == '='))
    let main := cs.takeWhile (fun c => c ≠ '=')
    let pads := cs.length - main.length
    if (main.length + pads) % 4 = 0 ∧ pads ≤ 2 then
      some (b64SextetsToBytes (main.filterMap b64Val))
    else none

/-! ### `bytes.decode("utf-8")` (strict) -/

/-- Strict UTF-8 decoding of a byte list: rejects stray or missing
continuation bytes, overlong forms, surrogates and out-of-range values. -/
def utf8DecodeAux : List Nat → Option (List Char)
  | [] => some []
  | b :: rest =>
    if b < 0x80 then (utf8DecodeAux rest).map (fun l => Char.ofNat b :: l)
    else if b < 0xC2 then none
    else if b < 0xE0 then
      match rest with
      | c1 :: r =>
          if 0x80 ≤ c1 ∧ c1 < 0xC0 then
            (utf8DecodeAux r).map
              (fun l => Char.ofNat ((b - 0xC0) * 64 + (c1 - 0x80)) :: l)
          else none
      | [] => none
    else if b < 0xF0 then
      match rest with
      | c1 :: c2 :: r =>
          let code := (b - 0xE0) * 4096 + (c1 - 0x80) * 64 + (c2 - 0x80)
          if (0x80 ≤ c1 ∧ c1 < 0xC0) ∧ (0x80 ≤ c2 ∧ c2 < 0xC0) ∧
              0x800 ≤ code ∧ ¬(0xD800 ≤ code ∧ code < 0xE000) then
            (utf8DecodeAux r).map (fun l => Char.ofNat code :: l)
          else none
      | _ => none
    else if b < 0xF5 then
      match rest with
      | c1 :: c2 :: c3 :: r =>
          let code := (b - 0xF0) * 262144 + (c1 - 0x80) * 4096 +
            (c2 - 0x80) * 64 + (c3 - 0x80)
          if (0x80 ≤ c1 ∧ c1 < 0xC0) ∧ (0x80 ≤ c2 ∧ c2 < 0xC0) ∧
              (0x80 ≤ c3 ∧ c3 < 0xC0) ∧ 0x10000 ≤ code ∧ code ≤ 0x10FFFF then
            (utf8DecodeAux r).map (fun l => Char.ofNat code :: l)
          else none
      | _ => none
    else none

/-- Model of `bytes(bs).decode("utf-8")` returning `none` on a
`UnicodeDecodeError`. -/
def utf8Decode (bs : List Nat) : Option String := (utf8DecodeAux bs).map String.mk

/-! ### `json.loads` -/

/-- JSON insignificant whitespace. -/
def jsonWs (c : Char) : Bool :=
  (c == ' ') || (c == '\t') || (c == '\n') || (c == '\r')

def skipWs (cs : List Char) : List Char := cs.dropWhile jsonWs

def hexVal (c : Char) : Option Nat :=
  if '0' ≤ c ∧ c ≤ '9' then some (c.toNat - 48)
  else if 'a' ≤ c ∧ c ≤ 'f' then some (c.toNat - 87)
  else if 'A' ≤ c ∧ c ≤ 'F' then some (c.toNat - 55)
  else none

def hex4 (h1 h2 h3 h4 : Char) : Option Nat :=
  (hexVal h1).bind fun a => (hexVal h2).bind fun b =>
  (hexVal h3).bind fun c => (hexVal h4).map fun d =>
    ((a * 16 + b) * 16 + c) * 16 + d

/-- Body of a JSON string after the opening quote (fuel-indexed; every
step consumes at least one character, so callers pass `length + 1`):
returns the decoded characters and the input remaining after the closing
quote. Escapes follow `json.loads`; a `\uXXXX` high surrogate
immediately followed by a `\uXXXX` low surrogate is combined into one
code point (a lone surrogate, legal in a Python `str`, is approximated
by `Char.ofNat`'s default). -/
def parseStringBody : Nat → List Char → Option (List Char × List Char)
  | 0, _ => none
  | _ + 1, [] => none
  | _ + 1, '"' :: rest => some ([], rest)
  | f + 1, '\\' :: esc =>
    match esc with
    | '"' :: r => (parseStringBody f r).map (fun p => ('"' :: p.1, p.2))
    | '\\' :: r => (parseStringBody f r).map (fun p => ('\\' :: p.1, p.2))
    | '/' :: r => (parseStringBody f r).map (fun p => ('/' :: p.1, p.2))
    | 'b' :: r => (parseStringBody f r).map (fun p => ('\x08' :: p.1, p.2))
    | 'f' :: r => (parseStringBody f r).map (fun p => ('\x0c' :: p.1, p.2))
    | 'n' :: r => (parseStringBody f r).map (fun p => ('\n' :: p.1, p.2))
    | 'r' :: r => (parseStringBody f r).map (fun p => ('\r' :: p.1, p.2))
    | 't' :: r => (parseStringBody f r).map (fun p => ('\t' :: p.1, p.2))
    | 'u' :: h1 :: h2 :: h3 :: h4 :: r =>
      match hex4 h1 h2 h3 h4 with
      | none => none
      | some code =>
        if 0xD800 ≤ code ∧ code < 0xDC00 then
          match r with
          | '\\' :: 'u' :: g1 :: g2 :: g3 :: g4 :: r2 =>
            match hex4 g1 g2 g3 g4 with
            | none => none
            | some low =>
              if 0xDC00 ≤ low ∧ low < 0xE000 then
                (parseStringBody f r2).map (fun p =>
                  (Char.ofNat (0x10000 + (code - 0xD800) * 1024 +
                    (low - 0xDC00)) :: p.1, p.2))
              else
                (parseStringBody f ('\\' :: 'u' :: g1 :: g2 :: g3 :: g4 :: r2)).map
                  (fun p => (Char.ofNat code :: p.1, p.2))
          | _ => (parseStringBody f r).map (fun p => (Char.ofNat code :: p.1, p.2))
        else (parseStringBody f r).map (fun p => (Char.ofNat code :: p.1, p.2))
    | _ => none
  | f + 1, c :: rest =>
      if c.toNat < 32 then none
      else (parseStringBody f rest).map (fun p => (c :: p.1, p.2))

/-- Left-to-right digit accumulation: value, digit count, rest. -/
def readDigitsAux : List Char → Nat → Nat → Nat × Nat × List Char
  | c :: t, acc, n =>
      if c.isDigit then readDigitsAux t (acc * 10 + (c.toNat - 48)) (n + 1)
      else (acc, n, c :: t)
  | [], acc, n => (acc, n, [])

/-- Optional `.digits` fraction: value, digit count, rest. -/
def parseFracPart : List Char → Option (Nat × Nat × List Char)
  | '.' :: t =>
      let (v, n, r) := readDigitsAux t 0 0
      if n = 0 then none else some (v, n, r)
  | cs => some (0, 0, cs)

def parseExpDigits (t : List Char) (neg : Bool) : Option (Int × List Char) :=
  let (v, n, r) := readDigitsAux t 0 0
  if n = 0 then none else some (if neg then -(v : Int) else (v : Int), r)

def parseExpSign : List Char → Option (Int × List Char)
  | '+' :: t => parseExpDigits t false
  | '-' :: t => parseExpDigits t true
  | t => parseExpDigits t false

/-- Optional `e`/`E` exponent. -/
def parseExpPart : List Char → Option (Int × List Char)
  | 'e' :: t => parseExpSign t
  | 'E' :: t => parseExpSign t
  | cs => some (0, cs)

/-- Reduce a fraction to lowest terms (denominator positive). -/
def ratNorm (n : Int) (d : Nat) : Int × Nat :=
  if d = 0 then (0, 1)
  else
    let g := Nat.gcd n.natAbs d
    (n / (g : Int), d / g)

/-- Numeric value of a parsed JSON number, as a reduced fraction:
`±(ip·10^fn + fv) / 10^fn · 10^e` where `fn` is the number of fraction
digits (floats modelled as exact rationals). -/
def jsonNumVal (neg : Bool) (ip fv fn : Nat) (e : Int) : Int × Nat :=
  let mant : Int := (ip * 10 ^ fn + fv : Nat)
  let mant := if neg then -mant else mant
  if 0 ≤ e then ratNorm (mant * 10 ^ e.toNat) (10 ^ fn)
  else ratNorm mant (10 ^ fn * 10 ^ (-e).toNat)

/-- JSON number grammar: optional minus, `0` or a nonzero-led integer
part, optional fraction and exponent (`NaN`/`Infinity`, which
`json.loads` also accepts, are outside this rational-number model). -/
def parseNumber (cs : List Char) : Option (PyVal × List Char) :=
  let sn : Bool × List Char :=
    match cs with
    | '-' :: t => (true, t)
    | _ => (false, cs)
  match sn.2 with
  | '0' :: t =>
      (parseFracPart t).bind fun fr =>
      (parseExpPart fr.2.2).map fun ex =>
        let q := jsonNumVal sn.1 0 fr.1 fr.2.1 ex.1
        (.num q.1 q.2, ex.2)
  | c :: t =>
      if c.isDigit then
        let d := readDigitsAux (c :: t) 0 0
        (parseFracPart d.2.2).bind fun fr =>
        (parseExpPart fr.2.2).map fun ex =>
          let q := jsonNumVal sn.1 d.1 fr.1 fr.2.1 ex.1
          (.num q.1 q.2, ex.2)
      else none
  | [] => none

mutual

/-- Recursive-descent JSON value parser (fuel-indexed; `jsonLoads`
supplies ample fuel). -/
def parseValue : Nat → List Char → Option (PyVal × List Char)
  | 0, _ => none
  | f + 1, cs =>
    match skipWs cs with
    | 't' :: 'r' :: 'u' :: 'e' :: r => some (.bool true, r)
    | 'f' :: 'a' :: 'l' :: 's' :: 'e' :: r => some (.bool false, r)
    | 'n' :: 'u' :: 'l' :: 'l' :: r => some (.null, r)
    | '"' :: r =>
        (parseStringBody (r.length + 1) r).map
          (fun p => (.str (String.mk p.1), p.2))
    | '[' :: r => parseArrayItems f (skipWs r) [] true
    | '{' :: r => parseObjectItems f (skipWs r) [] true
    | c :: r => if c = '-' ∨ c.isDigit then parseNumber (c :: r) else none
    | [] => none
termination_by structural f _ => f

/-- Items of a JSON array after `[` (whitespace already skipped). -/
def parseArrayItems : Nat → List Char → List PyVal → Bool → Option (PyVal × List Char)
  | 0, _, _, _ => none
  | f + 1, cs, acc, first =>
    match first, cs with
    | true, ']' :: r => some (.list [], r)
    | _, _ =>
      match parseValue f cs with
      | none => none
      | some (v, rest) =>
        match skipWs rest with
        | ',' :: r2 => parseArrayItems f (skipWs r2) (v :: acc) false
        | ']' :: r2 => some (.list (v :: acc).reverse, r2)
        | _ => none
termination_by structural f _ _ _ => f

/-- Members of a JSON object after `\x7b` (whitespace already skipped);
duplicate keys are resolved like repeated dict assignment (last wins). -/
def parseObjectItems : Nat → List Char → List (String × PyVal) → Bool → Option (PyVal × List Char)
  | 0, _, _, _ => none
  | f + 1, cs, acc, first =>
    match first, cs with
    | true, '}' :: r => some (.dict [], r)
    | _, _ =>
      match cs with
      | '"' :: r =>
        match parseStringBody (r.length + 1) r with
        | none => none
        | some (kcs, r1) =>
          match skipWs r1 with
          | ':' :: r2 =>
            match parseValue f r2 with
            | none => none
            | some (v, rest) =>
              let acc' := setKey acc (String.mk kcs) v
              match skipWs rest with
              | ',' :: r3 => parseObjectItems f (skipWs r3) acc' false
              | '}' :: r3 => some (.dict acc', r3)
              | _ => none
          | _ => none
      | _ => none
termination_by structural f _ _ _ => f

end

/-- Model of `json.loads(s)`: parse one value and require only
whitespace to remain. -/
def jsonLoads (s : String) : Option PyVal :=
  match parseValue (s.data.length + 2) s.data with
  | some (v, rest) => if skipWs rest = [] then some v else none
  | none => none

/-! ### Extracted content and the renderer
(`fetch_quiz_page_and_extract`, `src/main.py` lines 37–74) -/

/-- The dictionary produced by a successful `fetch_quiz_page_and_extract`:
`raw_pre` (inner text of a `pre` element, if one was found),
`window_quiz_data` (the value of `window.__QUIZ_DATA__`, key absent when
`page.evaluate` raised), and `body_text` (`page.content()`, always set
on success). -/
structure Extracted where
  raw_pre : Option String
  window_quiz_data : Option PyVal
  body_text : String

/-- Events issued on the browser session, in order, during one call of
`fetch_quiz_page_and_extract`. -/
inductive BrowserEvent where
  | launch
  | newContext
  | newPage
  | gotoCall
  | contextClose
  | browserClose
  deriving DecidableEq

/-- Model of `fetch_quiz_page_and_extract` (lines 42–74). The outcomes
of the four I/O primitives are inputs: `gotoResult` (`page.goto`, which
raises on navigation timeout), `preResult` (`query_selector("pre")` +
`inner_text`), `evalResult` (`page.evaluate` of `window.__QUIZ_DATA__`,
whose exceptions are caught and recorded as an absent key), and
`contentResult` (`page.content()`). Crucially, `page.goto` sits at line
46, before the `try`/`finally` of lines 52–73, so a navigation failure
exits without the explicit `context.close()`/`browser.close()` calls;
failures inside the `try` run the `finally` closes and then propagate.
The declared `timeout_s` parameter is consumed by `page.goto`, which is
abstracted by `gotoResult` here. -/
def fetch_quiz_page_and_extract (_timeout_s : Int)
    (gotoResult : Except String Unit)
    (preResult : Except String (Option String))
    (evalResult : Except String PyVal)
    (contentResult : Except String String) :
    Except String Extracted × List BrowserEvent :=
  match gotoResult with
  | .error m => (.error m, [.launch, .newContext, .newPage, .gotoCall])
  | .ok _ =>
    match preResult with
    | .error m =>
        (.error m,
         [.launch, .newContext, .newPage, .gotoCall, .contextClose, .browserClose])
    | .ok rp =>
      let wqd : Option PyVal :=
        match evalResult with
        | .ok v => some v
        | .error _ => none
      match contentResult with
      | .error m =>
          (.error m,
           [.launch, .newContext, .newPage, .gotoCall, .contextClose, .browserClose])
      | .ok body =>
          (.ok ⟨rp, wqd, body⟩,
           [.launch, .newContext, .newPage, .gotoCall, .contextClose, .browserClose])

/-! ### Answer derivation (`parse_and_solve`, lines 76–108) -/

/-- The deployed oracle stub (`call_gemini`, lines 30–35): returns a
fixed JSON string. The pipeline model abstracts the oracle as a
`String → String` dependency; this constant is the concrete one the
repository ships. -/
def call_gemini (_prompt : String) : String := "\x7b\"answer\": \"demo\"\x7d"

/-- Deterministic tier of `parse_and_solve` (lines 84–96): if a `pre`
block was captured, strip it, base64-decode it, UTF-8-decode the bytes,
JSON-parse the text, and wrap the parsed value under `"answer"`; any
failure (modelled by `none`) falls through to the oracle tier. -/
def detTier (extracted : Extracted) : Option PyVal :=
  extracted.raw_pre.bind fun rp =>
    (pyB64Decode (pyStrip rp)).bind fun bs =>
      (utf8Decode bs).bind fun s =>
        (jsonLoads s).map fun candidate => PyVal.dict [("answer", candidate)]

/-- Fixed leading text of the oracle prompt (line 99). -/
def promptIntro : String :=
  "You are given this HTML/text (truncated if large). Identify the quiz submit JSON payload needed based on page instructions. Page content:\n\n"

/-- The oracle prompt: intro text plus the first 4000 characters of the
rendered markup (`extracted.get('body_text','')[:4000]`, line 99). -/
def oraclePrompt (extracted : Extracted) : String :=
  promptIntro ++ strTake extracted.body_text 4000

/-- Model of `parse_and_solve` (lines 76–108). Returns the answer
payload together with the number of oracle invocations and the prompt
given to the oracle (if any). The unused `time_remaining_s` parameter
mirrors the source signature, whose body also ignores it. -/
def parse_and_solve (oracle : String → String) (extracted : Extracted)
    (_time_remaining_s : Int) : PyVal × Nat × Option String :=
  match detTier extracted with
  | some a => (a, 0, none)
  | none =>
    let prompt := oraclePrompt extracted
    let out := oracle prompt
    match jsonLoads out with
    | some parsed => (parsed, 1, some prompt)
    | none => (.dict [("answer_text", .str out)], 1, some prompt)

/-! ### Submission-URL discovery (lines 142–154)

The source scans `body_text` with
`re.search(r"https?://[^\s'\"<>]+/submit[^\s'\"<>]*", body)`.
For a backtracking engine this pattern matches at a start position
exactly when the text there begins `http://` or `https://` and the
maximal following run of non-delimiter characters contains `/submit`
at offset at least 1 (the `+` must consume something); the greedy
trailing `*` then always extends the match to the end of that run, so
the matched text is the scheme plus the whole run. `re.search` returns
the match at the leftmost feasible start. -/

/-- Characters excluded by the `[^\s'"<>]` classes of the pattern. -/
def urlDelim (c : Char) : Bool :=
  pySpace c || (c == '\'') || (c == '"') || (c == '<') || (c == '>')

/-- Strip an expected literal prefix, returning the remainder. -/
def dropPre : List Char → List Char → Option (List Char)
  | [], cs => some cs
  | _ :: _, [] => none
  | p :: ps, c :: cs => if c = p then dropPre ps cs else none

/-- Does `/submit` occur starting at any position of the list? -/
def containsSubmitSeg : List Char → Bool
  | [] => false
  | c :: t => (List.isPrefixOf "/submit".data (c :: t)) || containsSubmitSeg t

/-- Attempt the regex at a position whose scheme was already consumed:
take the maximal non-delimiter run and require `/submit` at offset ≥ 1. -/
def submitMatchRun (scheme rest : List Char) : Option (List Char) :=
  let run := rest.takeWhile (fun c => !urlDelim c)
  if containsSubmitSeg (run.drop 1) then some (scheme ++ run) else none

/-- Attempt the regex at one start position. -/
def submitMatchAt (cs : List Char) : Option (List Char) :=
  match dropPre "https://".data cs with
  | some rest => submitMatchRun "https://".data rest
  | none =>
    match dropPre "http://".data cs with
    | some rest => submitMatchRun "http://".data rest
    | none => none

/-- Leftmost match, scanning start positions left to right. -/
def searchSubmitAux : List Char → Option (List Char)
  | [] => none
  | c :: t =>
    match submitMatchAt (c :: t) with
    | some m => some m
    | none => searchSubmitAux t

/-- Model of the `re.search` on line 147 (`m.group(0)` of the first
match, if any). -/
def findSubmitUrl (body : String) : Option String :=
  (searchSubmitAux body.data).map String.mk

/-- Destination resolution (lines 142–154): the regex match wins;
otherwise `wdata = extracted.get("window_quiz_data") or \x7b\x7d` and
`wdata.get("submit_url") or wdata.get("url") or payload.url`. A truthy
non-dict `wdata` has no `.get` attribute, which raises an
`AttributeError` (modelled by `.error`). -/
def resolveSubmitUrl (extracted : Extracted) (payloadUrl : String) :
    Except String PyVal :=
  match findSubmitUrl extracted.body_text with
  | some m => .ok (.str m)
  | none =>
    let wdata : PyVal :=
      match extracted.window_quiz_data with
      | some v => if pyTruthy v then v else .dict []
      | none => .dict []
    match wdata with
    | .dict kvs =>
        .ok (pyOr (pyGetD kvs "submit_url")
              (pyOr (pyGetD kvs "url") (.str payloadUrl)))
    | _ => .error "AttributeError"

/-! ### Budget (lines 129–137) and the endpoint (lines 110–163) -/

/-- Python `int()` on a rational: truncation toward zero. -/
def pyIntTrunc (q : ℚ) : ℤ :=
  if q < 0 then -(Int.floor (-q)) else Int.floor q

/-- Model of `int(max(5, MAX_TOTAL_S - elapsed))` with `MAX_TOTAL_S = 170.0`
(lines 130–132 and 136–137), the remaining budget computed before the
render stage and again before the derivation stage. -/
def timeRemaining (elapsed : ℚ) : ℤ := pyIntTrunc (max 5 (170 - elapsed))

/-- Predicate under which `httpx.Response.raise_for_status` does not
raise: a 2xx status. -/
def is2xx (status : Nat) : Bool := decide (200 ≤ status) && decide (status < 300)

def isOkE {ε α : Type} : Except ε α → Bool
  | .ok _ => true
  | .error _ => false

/-- Errors terminating the endpoint, by stage: 400 on invalid JSON or
payload, 500 on missing `APP_SECRET`, 403 on a wrong secret, and
propagated exceptions from rendering, resolution (`AttributeError`),
body merging (`TypeError` on a non-dict answer), the POST status check
(`raise_for_status`), and response JSON decoding. -/
inductive PipelineError where
  | badJson
  | invalidPayload
  | misconfigured
  | invalidSecret
  | renderError : String → PipelineError
  | attributeError
  | typeError
  | httpStatusError : Nat → PipelineError
  | respParseError
  deriving DecidableEq

/-- External outcomes one request can observe: the secret configured in
the environment, the four renderer primitives, the oracle, and the
submission POST's status and response body. -/
structure Env where
  appSecret : Option String
  gotoResult : Except String Unit
  preResult : Except String (Option String)
  evalResult : Except String PyVal
  contentResult : Except String String
  oracle : String → String
  postStatus : Nat
  postRespJson : Option PyVal

/-- Observable outcome of one endpoint invocation: the response or
error, how many submission POSTs were issued, how many oracle calls were
made, and the JSON body of the POST (if one was issued). -/
structure RunResult where
  result : Except PipelineError PyVal
  posts : Nat
  oracleCalls : Nat
  postedBody : Option PyVal

/-- Model of `QuizPayload(**payload_json)` (lines 22–28): requires string
`email`, `secret` and `url` fields and passes every other field through
(`extra = "allow"`); yields the raw field dict plus the validated secret
and url. -/
def validatePayload (body? : Option PyVal) :
    Option (List (String × PyVal) × String × String) :=
  match body? with
  | some (.dict kvs) =>
    match pyGet kvs "email", pyGet kvs "secret", pyGet kvs "url" with
    | some (.str _), some (.str s), some (.str u) => some (kvs, s, u)
    | _, _, _ => none
  | _ => none

/-- Model of `quiz_endpoint` (lines 110–163). `body?` is the parsed
request JSON (`none` when `request.json()` raised); `e1` and `e2` are
the elapsed wall-clock seconds observed at lines 131 and 136. -/
def quiz_endpoint (env : Env) (body? : Option PyVal) (e1 e2 : ℚ) : RunResult :=
  match body? with
  | none => ⟨.error .badJson, 0, 0, none⟩
  | some bodyJson =>
    match validatePayload (some bodyJson) with
    | none => ⟨.error .invalidPayload, 0, 0, none⟩
    | some (kvs, secret, url) =>
      match env.appSecret with
      | none => ⟨.error .misconfigured, 0, 0, none⟩
      | some appSec =>
        if secret != appSec then ⟨.error .invalidSecret, 0, 0, none⟩
        else
          match (fetch_quiz_page_and_extract (min 60 (timeRemaining e1))
                  env.gotoResult env.preResult env.evalResult
                  env.contentResult).1 with
          | .error m => ⟨.error (.renderError m), 0, 0, none⟩
          | .ok extracted =>
            match parse_and_solve env.oracle extracted (timeRemaining e2) with
            | (answerPayload, oCalls, _) =>
              match resolveSubmitUrl extracted url with
              | .error _ => ⟨.error .attributeError, 0, oCalls, none⟩
              | .ok target =>
                match answerPayload with
                | .dict akvs =>
                  if is2xx env.postStatus then
                    match env.postRespJson with
                    | some rj =>
                        ⟨.ok (.dict [("ok", .bool true), ("submitted_to", target),
                          ("result", rj)]), 1, oCalls,
                         some (.dict (pyMerge kvs akvs))⟩
                    | none => ⟨.error .respParseError, 1, oCalls,
                        some (.dict (pyMerge kvs akvs))⟩
                  else ⟨.error (.httpStatusError env.postStatus), 1, oCalls,
                    some (.dict (pyMerge kvs akvs))⟩
                | _ => ⟨.error .typeError, 0, oCalls, none⟩

/-! ### Helper lemmas -/

theorem pyGet_eq_none_iff (d : List (String × PyVal)) (k : String) :
    pyGet d k = none ↔ k ∉ d.map Prod.fst := by
  induction d with
  | nil => simp [pyGet]
  | cons p t ih =>
      obtain ⟨k₀, v₀⟩ := p
      by_cases h : k = k₀ <;> simp [pyGet, h, ih]

/-- Lookup of a key absent from `b` in `\x7b**a, **b\x7d` falls through
to `a`. -/
theorem pyGet_pyMerge_of_none (a b : List (String × PyVal)) (k : String)
    (h : pyGet b k = none) : pyGet (pyMerge a b) k = pyGet a k := by
  rw [pyGet_pyMerge]
  have : pyGet b.reverse k = none := by
    rw [pyGet_eq_none_iff] at h ⊢
    simpa using h
  rw [this]
  rfl

/-- Lookup of a key present in a duplicate-free `b` in `\x7b**a, **b\x7d`
returns `b`'s value. -/
theorem pyGet_pyMerge_of_some (a b : List (String × PyVal)) (k : String)
    (v : PyVal) (hnd : (b.map Prod.fst).Nodup) (h : pyGet b k = some v) :
    pyGet (pyMerge a b) k = some v := by
  rw [pyGet_pyMerge, pyGet_reverse_of_nodup b k hnd, h]
  rfl

/-- A successful `QuizPayload` validation pins the `secret` field of the
raw body to the validated secret string. -/
theorem validate_secret_field (body? : Option PyVal)
    (kvs : List (String × PyVal)) (s u : String)
    (h : validatePayload body? = some (kvs, s, u)) :
    pyGet kvs "secret" = some (.str s) := by
  unfold validatePayload at h
  split at h
  next kvs0 =>
    split at h
    next he hs hu =>
      injection h with h1
      injection h1 with hk h2
      injection h2 with hs' hu'
      subst hk
      subst hs'
      assumption
    next => exact absurd h (by simp)
  next => exact absurd h (by simp)

/-- A falsy in-page value is replaced by the empty dict, whose lookups
all miss, so resolution falls back to the request URL. -/
theorem resolveSubmitUrl_of_falsy (extracted : Extracted) (url : String)
    (v : PyVal) (hn : findSubmitUrl extracted.body_text = none)
    (hv : extracted.window_quiz_data = some v) (ht : pyTruthy v = false) :
    resolveSubmitUrl extracted url = .ok (.str url) := by
  unfold resolveSubmitUrl
  rw [hn, hv]
  cases v with
  | null => rfl
  | bool b => simp [pyTruthy] at ht; subst ht; rfl
  | num n d => simp [pyTruthy] at ht; subst ht; rfl
  | str s => simp [pyTruthy] at ht; subst ht; rfl
  | list xs => simp [pyTruthy] at ht; subst ht; rfl
  | dict kvs => simp [pyTruthy] at ht; subst ht; rfl

/-! ### Claim theorems -/

/-- Claim C1: before each pipeline stage the remaining budget equals the
170-second allowance minus elapsed time, floored at 5 seconds (the
truncation to `int` coincides with the mathematical floor there), so the
budget handed to any stage — including the render stage's
`min(60, time_remaining)` — is at least 5 and never zero or negative. -/
theorem timeRemaining_floor (e : ℚ) :
    timeRemaining e = Int.floor (max 5 (170 - e)) ∧
    5 ≤ timeRemaining e ∧ 5 ≤ min 60 (timeRemaining e) := by
  have h5 : (5 : ℚ) ≤ max 5 (170 - e) := le_max_left _ _
  have hnotneg : ¬(max 5 (170 - e) < 0) := by
    intro h
    linarith
  have heq : timeRemaining e = Int.floor (max 5 (170 - e)) := by
    unfold timeRemaining pyIntTrunc
    rw [if_neg hnotneg]
  have hfl : (5 : ℤ) ≤ Int.floor (max 5 (170 - e)) := by
    rw [Int.le_floor]
    exact_mod_cast h5
  refine ⟨heq, ?_, ?_⟩
  · rw [heq]; exact hfl
  · rw [heq]; exact le_min (by norm_num) hfl

/-- Claim C2: whenever the captured pre-formatted block strips,
base64-decodes, UTF-8-decodes and JSON-parses successfully, derivation
returns the parsed value wrapped under `"answer"` and the oracle is
never invoked (zero oracle calls, no prompt). -/
theorem detTier_skips_oracle (oracle : String → String) (extracted : Extracted)
    (t : Int) (rp : String) (bs : List Nat) (s : String) (v : PyVal)
    (hpre : extracted.raw_pre = some rp)
    (hb64 : pyB64Decode (pyStrip rp) = some bs)
    (hutf : utf8Decode bs = some s)
    (hjson : jsonLoads s = some v) :
    parse_and_solve oracle extracted t = (.dict [("answer", v)], 0, none) := by
  unfold parse_and_solve detTier
  rw [hpre]
  simp [hb64, hutf, hjson]

/-- Witness for C2, the spec's end-to-end scenario A: a pre block
`eyJhIjoxfQ==` (base64 of the JSON object mapping "a" to 1) derives
the value wrapping that object under "answer", with zero oracle calls,
even against the deployed oracle stub. -/
theorem detTier_skips_oracle_witness :
    (⟨some "eyJhIjoxfQ==", none, ""⟩ : Extracted).raw_pre = some "eyJhIjoxfQ==" ∧
    pyB64Decode (pyStrip "eyJhIjoxfQ==") = some [123, 34, 97, 34, 58, 49, 125] ∧
    utf8Decode [123, 34, 97, 34, 58, 49, 125] = some "\x7b\"a\":1\x7d" ∧
    jsonLoads "\x7b\"a\":1\x7d" = some (.dict [("a", .num 1 1)]) ∧
    parse_and_solve call_gemini ⟨some "eyJhIjoxfQ==", none, ""⟩ 5 =
      (.dict [("answer", .dict [("a", .num 1 1)])], 0, none) :=
  ⟨rfl, rfl, rfl, rfl,
    detTier_skips_oracle call_gemini ⟨some "eyJhIjoxfQ==", none, ""⟩ 5
      "eyJhIjoxfQ==" [123, 34, 97, 34, 58, 49, 125] "\x7b\"a\":1\x7d"
      (.dict [("a", .num 1 1)]) rfl rfl rfl rfl⟩

/-- Claim C3: when the deterministic tier yields nothing, the oracle is
invoked exactly once, with a prompt whose page-content excerpt is the
first 4000 characters of the rendered markup (hence at most 4000
characters); a JSON-parsing oracle response is returned as parsed,
otherwise the raw text is wrapped under `"answer_text"`. -/
theorem oracle_tier_once (oracle : String → String) (extracted : Extracted)
    (t : Int) (hdet : detTier extracted = none) :
    (parse_and_solve oracle extracted t).2.1 = 1 ∧
    (parse_and_solve oracle extracted t).2.2 = some (oraclePrompt extracted) ∧
    (strTake extracted.body_text 4000).length ≤ 4000 ∧
    (parse_and_solve oracle extracted t).1 =
      ((jsonLoads (oracle (oraclePrompt extracted))).getD
        (.dict [("answer_text", .str (oracle (oraclePrompt extracted)))])) := by
  have hlen : (strTake extracted.body_text 4000).length ≤ 4000 := by
    have h1 : (strTake extracted.body_text 4000).length =
        (extracted.body_text.data.take 4000).length := rfl
    rw [h1, List.length_take]
    exact min_le_left _ _
  unfold parse_and_solve
  rw [hdet]
  cases hj : jsonLoads (oracle (oraclePrompt extracted)) <;>
    simp [hj, hlen]

/-- Witness for C3, the spec's end-to-end scenario B: no pre block, the
oracle answers the non-JSON text `not json`, and the derived payload
wraps it under `"answer_text"` after exactly one oracle call. -/
theorem oracle_tier_once_witness :
    detTier ⟨none, none, "<html></html>"⟩ = none ∧
    ((parse_and_solve (fun _ => "not json") ⟨none, none, "<html></html>"⟩ 5).2.1 = 1 ∧
     (parse_and_solve (fun _ => "not json") ⟨none, none, "<html></html>"⟩ 5).2.2 =
       some (oraclePrompt ⟨none, none, "<html></html>"⟩) ∧
     (strTake (Extracted.body_text ⟨none, none, "<html></html>"⟩) 4000).length ≤ 4000 ∧
     (parse_and_solve (fun _ => "not json") ⟨none, none, "<html></html>"⟩ 5).1 =
       ((jsonLoads ((fun _ => "not json")
           (oraclePrompt ⟨none, none, "<html></html>"⟩))).getD
         (.dict [("answer_text",
           .str ((fun _ => "not json")
             (oraclePrompt ⟨none, none, "<html></html>"⟩)))]))) ∧
    (parse_and_solve (fun _ => "not json") ⟨none, none, "<html></html>"⟩ 5).1 =
      .dict [("answer_text", .str "not json")] :=
  ⟨rfl,
    oracle_tier_once (fun _ => "not json") ⟨none, none, "<html></html>"⟩ 5 rfl,
    rfl⟩

/-- Claim C4: destination resolution follows strict precedence — the
first left-to-right regex match in the rendered markup wins; otherwise
the in-page data object's `submit_url` field, then its `url` field
(Python `or`, so a falsy field value falls through); otherwise the
original request URL. -/
theorem resolution_precedence (extracted : Extracted) (url : String) :
    (∀ m, findSubmitUrl extracted.body_text = some m →
        resolveSubmitUrl extracted url = .ok (.str m)) ∧
    (findSubmitUrl extracted.body_text = none →
      ∀ kvs, extracted.window_quiz_data = some (.dict kvs) →
        resolveSubmitUrl extracted url =
          .ok (pyOr (pyGetD kvs "submit_url")
                (pyOr (pyGetD kvs "url") (.str url)))) ∧
    (findSubmitUrl extracted.body_text = none →
      (extracted.window_quiz_data = none ∨
        (∃ v, extracted.window_quiz_data = some v ∧ pyTruthy v = false)) →
      resolveSubmitUrl extracted url = .ok (.str url)) := by
  refine ⟨?_, ?_, ?_⟩
  · intro m hm
    unfold resolveSubmitUrl
    rw [hm]
  · intro hn kvs hw
    unfold resolveSubmitUrl
    rw [hn, hw]
    rcases kvs with _ | ⟨p, t⟩
    · simp [pyTruthy]
    · simp [pyTruthy]
  · intro hn h
    rcases h with h | ⟨v, hv, ht⟩
    · unfold resolveSubmitUrl
      rw [hn, h]
      rfl
    · exact resolveSubmitUrl_of_falsy extracted url v hn hv ht

/-- Witness for C4, the spec's precedence test and scenario C: markup
containing a `/submit` URL and an in-page `submit_url` both present —
the markup match wins over both the in-page field and the request URL;
with neither present, resolution falls back to the request URL. -/
theorem resolution_precedence_witness :
    findSubmitUrl "go to https://host/path/submit?x=1 now" =
      some "https://host/path/submit?x=1" ∧
    resolveSubmitUrl
      ⟨none, some (.dict [("submit_url", .str "https://inpage/submit")]),
        "go to https://host/path/submit?x=1 now"⟩ "https://other/page" =
      .ok (.str "https://host/path/submit?x=1") ∧
    resolveSubmitUrl
      ⟨none, some (.dict [("submit_url", .str "https://inpage/submit")]), "plain"⟩
      "https://other/page" = .ok (.str "https://inpage/submit") ∧
    resolveSubmitUrl ⟨none, none, "plain"⟩ "https://other/page" =
      .ok (.str "https://other/page") :=
  ⟨rfl,
    (resolution_precedence
      ⟨none, some (.dict [("submit_url", .str "https://inpage/submit")]),
        "go to https://host/path/submit?x=1 now"⟩ "https://other/page").1
      "https://host/path/submit?x=1" rfl,
    rfl, rfl⟩

/-- Counterexample to claim C5: with no `/submit` match in the markup
and a truthy non-dict in-page value (here the string `"hello"`),
`wdata.get` raises an `AttributeError` — destination resolution does
not always produce a URL. -/
theorem resolution_raises_cex :
    resolveSubmitUrl ⟨none, some (.str "hello"), "no url"⟩ "http://x" =
      .error "AttributeError" ∧
    isOkE (resolveSubmitUrl ⟨none, some (.str "hello"), "no url"⟩ "http://x") =
      false :=
  ⟨rfl, rfl⟩

/-- Claim C5 as amended: destination resolution never raises and always
produces a value provided the markup contains a `/submit` match, or the
in-page data value is absent, falsy, or a dict; a truthy non-dict value
(nonempty string, nonzero number, nonempty list, `True`) with no markup
match raises an `AttributeError`. -/
theorem resolution_total_amended (extracted : Extracted) (url : String)
    (h : (∃ m, findSubmitUrl extracted.body_text = some m) ∨
         extracted.window_quiz_data = none ∨
         (∃ v, extracted.window_quiz_data = some v ∧
            (pyTruthy v = false ∨ ∃ kvs, v = .dict kvs))) :
    isOkE (resolveSubmitUrl extracted url) = true := by
  cases hm : findSubmitUrl extracted.body_text with
  | some m =>
      unfold resolveSubmitUrl
      rw [hm]
      rfl
  | none =>
    rcases h with ⟨m, hm'⟩ | h | ⟨v, hv, hshape⟩
    · rw [hm] at hm'
      exact absurd hm' (by simp)
    · unfold resolveSubmitUrl
      rw [hm, h]
      rfl
    · rcases hshape with ht | ⟨kvs, hk⟩
      · rw [resolveSubmitUrl_of_falsy extracted url v hm hv ht]
        rfl
      · subst hk
        unfold resolveSubmitUrl
        rw [hm, hv]
        by_cases htr : pyTruthy (PyVal.dict kvs) <;> simp [htr, isOkE]

/-- Witness for C5 (amended): an in-page dict whose `url` field is a
number still resolves without raising (to that number, as the code
would), and an absent in-page value resolves to the request URL. -/
theorem resolution_total_amended_witness :
    isOkE (resolveSubmitUrl ⟨none, some (.dict [("url", .num 1 1)]), "x"⟩
      "http://u") = true ∧
    resolveSubmitUrl ⟨none, some (.dict [("url", .num 1 1)]), "x"⟩ "http://u" =
      .ok (.num 1 1) :=
  ⟨resolution_total_amended ⟨none, some (.dict [("url", .num 1 1)]), "x"⟩
      "http://u"
      (Or.inr (Or.inr ⟨.dict [("url", .num 1 1)], rfl,
        Or.inr ⟨[("url", .num 1 1)], rfl⟩⟩)),
    rfl⟩

/-- Claim C6: the submitted body is `\x7b**payload_json, **answer_payload\x7d`
— on a key collision the derived answer's value appears in the final
body, and every non-colliding request field passes through unmodified. -/
theorem merge_precedence (request answer : List (String × PyVal)) (k : String) :
    ((answer.map Prod.fst).Nodup →
      ∀ v, pyGet answer k = some v →
        pyGet (pyMerge request answer) k = some v) ∧
    (pyGet answer k = none →
      pyGet (pyMerge request answer) k = pyGet request k) := by
  constructor
  · intro hnd v hv
    exact pyGet_pyMerge_of_some request answer k v hnd hv
  · intro hv
    exact pyGet_pyMerge_of_none request answer k hv

/-- Witness for C6: the request and answer collide on key "a" (answer
wins) while the request's "secret" field, absent from the answer, passes
through. -/
theorem merge_precedence_witness :
    (([("a", PyVal.str "y"), ("b", PyVal.num 2 1)].map Prod.fst).Nodup ∧
     pyGet [("a", PyVal.str "y"), ("b", PyVal.num 2 1)] "a" = some (.str "y") ∧
     pyGet (pyMerge [("secret", PyVal.str "s"), ("a", PyVal.str "x")]
       [("a", PyVal.str "y"), ("b", PyVal.num 2 1)]) "a" = some (.str "y")) ∧
    (pyGet [("a", PyVal.str "y"), ("b", PyVal.num 2 1)] "secret" = none ∧
     pyGet (pyMerge [("secret", PyVal.str "s"), ("a", PyVal.str "x")]
       [("a", PyVal.str "y"), ("b", PyVal.num 2 1)]) "secret" =
       pyGet [("secret", PyVal.str "s"), ("a", PyVal.str "x")] "secret") :=
  ⟨⟨by decide, rfl,
    (merge_precedence [("secret", PyVal.str "s"), ("a", PyVal.str "x")]
      [("a", PyVal.str "y"), ("b", PyVal.num 2 1)] "a").1 (by decide)
      (.str "y") rfl⟩,
   ⟨rfl,
    (merge_precedence [("secret", PyVal.str "s"), ("a", PyVal.str "x")]
      [("a", PyVal.str "y"), ("b", PyVal.num 2 1)] "secret").2 rfl⟩⟩

/-- Claim C7: a non-2xx status on the submission POST aborts the
pipeline — at most one POST is ever issued (no retry) and the caller
never receives a success response. -/
theorem nonsuccess_post_aborts (env : Env) (body? : Option PyVal) (e1 e2 : ℚ)
    (h : is2xx env.postStatus = false) :
    (quiz_endpoint env body? e1 e2).posts ≤ 1 ∧
    isOkE (quiz_endpoint env body? e1 e2).result = false := by
  unfold quiz_endpoint
  repeat' split
  all_goals first
  | exact ⟨by decide, rfl⟩
  | simp_all [isOkE]

/-- A request body and environment that drive the pipeline all the way
to the submission POST: valid fields, matching secret, successful
render with no `pre` block, the stub oracle, and a 500 response from
the submission endpoint. -/
def envW7 : Env :=
  ⟨some "sec", .ok (), .ok none, .ok .null, .ok "", call_gemini, 500, some .null⟩

/-- A well-formed request body used by the endpoint-level witnesses. -/
def bodyW : PyVal :=
  .dict [("email", .str "e"), ("secret", .str "sec"), ("url", .str "http://u")]

/-- Witness for C7: a run that reaches submission and receives status
500 issues exactly one POST and ends in the HTTP-status error. -/
theorem nonsuccess_post_aborts_witness :
    is2xx 500 = false ∧
    ((quiz_endpoint envW7 (some bodyW) 0 0).posts ≤ 1 ∧
     isOkE (quiz_endpoint envW7 (some bodyW) 0 0).result = false) ∧
    (quiz_endpoint envW7 (some bodyW) 0 0).posts = 1 ∧
    (quiz_endpoint envW7 (some bodyW) 0 0).result =
      .error (.httpStatusError 500) :=
  ⟨rfl, nonsuccess_post_aborts envW7 (some bodyW) 0 0 rfl, rfl, rfl⟩

/-- Claim C8: when navigation fails (e.g. the timeout elapses),
`fetch_quiz_page_and_extract` surfaces the failure as an error — not as
empty extracted content — and for a request that passed validation and
the secret check, the pipeline aborts with the render-stage failure:
no oracle call, no POST, no success. -/
theorem nav_timeout_aborts (env : Env) (body? : Option PyVal) (e1 e2 : ℚ)
    (kvs : List (String × PyVal)) (s u m : String)
    (hval : validatePayload body? = some (kvs, s, u))
    (hsec : env.appSecret = some s)
    (hgoto : env.gotoResult = .error m) :
    (fetch_quiz_page_and_extract (min 60 (timeRemaining e1)) env.gotoResult
        env.preResult env.evalResult env.contentResult).1 = .error m ∧
    (quiz_endpoint env body? e1 e2).result = .error (.renderError m) ∧
    (quiz_endpoint env body? e1 e2).posts = 0 ∧
    (quiz_endpoint env body? e1 e2).oracleCalls = 0 ∧
    (quiz_endpoint env body? e1 e2).postedBody = none := by
  have hf : (fetch_quiz_page_and_extract (min 60 (timeRemaining e1))
      env.gotoResult env.preResult env.evalResult env.contentResult).1 =
      .error m := by
    rw [hgoto]
    rfl
  rcases body? with _ | bj
  · exact absurd hval (by simp [validatePayload])
  · refine ⟨hf, ?_⟩
    simp only [quiz_endpoint, hval, hsec, bne_self_eq_false, Bool.false_eq_true,
      if_false, hf]
    exact ⟨trivial, trivial, trivial, trivial⟩

/-- An environment whose navigation times out (everything else would
succeed). -/
def envW8 : Env :=
  ⟨some "sec", .error "Timeout 60000ms exceeded.", .ok none, .ok .null,
    .ok "", call_gemini, 200, some .null⟩

/-- Witness for C8: with the navigation timeout environment, the render
stage errors and the pipeline ends in the render-stage failure with no
POST and no oracle call. -/
theorem nav_timeout_aborts_witness :
    validatePayload (some bodyW) =
      some ([("email", .str "e"), ("secret", .str "sec"),
        ("url", .str "http://u")], "sec", "http://u") ∧
    envW8.appSecret = some "sec" ∧
    envW8.gotoResult = .error "Timeout 60000ms exceeded." ∧
    ((fetch_quiz_page_and_extract (min 60 (timeRemaining 0)) envW8.gotoResult
        envW8.preResult envW8.evalResult envW8.contentResult).1 =
      .error "Timeout 60000ms exceeded." ∧
     (quiz_endpoint envW8 (some bodyW) 0 0).result =
       .error (.renderError "Timeout 60000ms exceeded.") ∧
     (quiz_endpoint envW8 (some bodyW) 0 0).posts = 0 ∧
     (quiz_endpoint envW8 (some bodyW) 0 0).oracleCalls = 0 ∧
     (quiz_endpoint envW8 (some bodyW) 0 0).postedBody = none) :=
  ⟨rfl, rfl, rfl,
    nav_timeout_aborts envW8 (some bodyW) 0 0
      [("email", .str "e"), ("secret", .str "sec"), ("url", .str "http://u")]
      "sec" "http://u" "Timeout 60000ms exceeded." rfl rfl rfl⟩

/-- Counterexample to claim C9: on the navigation-failure exit path the
function exits with neither `context.close()` nor `browser.close()`
issued (`page.goto` sits before the `try`/`finally` block), so the
context and browser are not explicitly closed on every exit path. -/
theorem fetch_close_cex :
    (fetch_quiz_page_and_extract 60 (.error "Timeout 60000ms exceeded.")
        (.ok none) (.ok .null) (.ok "")).2 =
      [.launch, .newContext, .newPage, .gotoCall] ∧
    BrowserEvent.contextClose ∉
      (fetch_quiz_page_and_extract 60 (.error "Timeout 60000ms exceeded.")
        (.ok none) (.ok .null) (.ok "")).2 ∧
    BrowserEvent.browserClose ∉
      (fetch_quiz_page_and_extract 60 (.error "Timeout 60000ms exceeded.")
        (.ok none) (.ok .null) (.ok "")).2 := by
  refine ⟨rfl, ?_, ?_⟩ <;> decide

/-- Claim C9 as amended: after a successful navigation, the context and
browser are explicitly closed on every exit path — normal return or any
extraction failure; when navigation itself fails, the function exits
with no explicit close (teardown is left to the `async_playwright`
context manager). -/
theorem fetch_closes_amended (t : Int) (p : Except String (Option String))
    (ev : Except String PyVal) (c : Except String String) :
    (BrowserEvent.contextClose ∈
        (fetch_quiz_page_and_extract t (.ok ()) p ev c).2 ∧
     BrowserEvent.browserClose ∈
        (fetch_quiz_page_and_extract t (.ok ()) p ev c).2) ∧
    ∀ m, (fetch_quiz_page_and_extract t (.error m) p ev c).2 =
      [.launch, .newContext, .newPage, .gotoCall] := by
  constructor
  · cases p <;> cases c <;> simp [fetch_quiz_page_and_extract]
  · intro m
    rfl

/-- Claim C10: for any run that reaches submission, the POST body is the
merge of the raw inbound request JSON with the derived answer, so every
inbound field absent from the answer — in particular the `secret` used
to authorise the request — is forwarded verbatim to the resolved
submission URL. -/
theorem secret_forwarded (env : Env) (body? : Option PyVal) (e1 e2 : ℚ)
    (kvs : List (String × PyVal)) (s u : String)
    (extracted : Extracted) (akvs : List (String × PyVal))
    (hval : validatePayload body? = some (kvs, s, u))
    (hsec : env.appSecret = some s)
    (hfetch : (fetch_quiz_page_and_extract (min 60 (timeRemaining e1))
        env.gotoResult env.preResult env.evalResult env.contentResult).1 =
        .ok extracted)
    (hans : (parse_and_solve env.oracle extracted (timeRemaining e2)).1 =
        .dict akvs)
    (hres : isOkE (resolveSubmitUrl extracted u) = true) :
    (quiz_endpoint env body? e1 e2).postedBody =
      some (.dict (pyMerge kvs akvs)) ∧
    (∀ k, pyGet akvs k = none →
        pyGet (pyMerge kvs akvs) k = pyGet kvs k) ∧
    (pyGet akvs "secret" = none →
        pyGet (pyMerge kvs akvs) "secret" = some (.str s)) := by
  have hsecf := validate_secret_field body? kvs s u hval
  have hpass : ∀ k, pyGet akvs k = none →
      pyGet (pyMerge kvs akvs) k = pyGet kvs k := fun k hk =>
    pyGet_pyMerge_of_none kvs akvs k hk
  refine ⟨?_, hpass, fun hk => by rw [hpass "secret" hk, hsecf]⟩
  rcases body? with _ | bj
  · exact absurd hval (by simp [validatePayload])
  rcases hps : parse_and_solve env.oracle extracted (timeRemaining e2) with
    ⟨a, oc, pr⟩
  rw [hps] at hans
  simp only at hans
  subst hans
  rcases hr : resolveSubmitUrl extracted u with e | target
  · rw [hr] at hres
    simp [isOkE] at hres
  · simp only [quiz_endpoint, hval, hsec, bne_self_eq_false,
      Bool.false_eq_true, if_false, hfetch, hps, hr]
    by_cases hp : is2xx env.postStatus
    · rw [if_pos hp]
      cases hpj : env.postRespJson <;> rfl
    · rw [if_neg hp]

/-- Witness for C10: a run through the deterministic tier whose answer
payload has no `secret` key — the POSTed body is the merge and its
`secret` entry is the inbound secret string. -/
def envW10 : Env :=
  ⟨some "sec", .ok (), .ok (some "eyJhIjoxfQ=="), .ok .null, .ok "",
    call_gemini, 200, some .null⟩

theorem secret_forwarded_witness :
    (quiz_endpoint envW10 (some bodyW) 0 0).postedBody =
      some (.dict (pyMerge
        [("email", .str "e"), ("secret", .str "sec"), ("url", .str "http://u")]
        [("answer", .dict [("a", .num 1 1)])])) ∧
    pyGet (pyMerge
        [("email", .str "e"), ("secret", .str "sec"), ("url", .str "http://u")]
        [("answer", .dict [("a", .num 1 1)])]) "secret" = some (.str "sec") ∧
    (quiz_endpoint envW10 (some bodyW) 0 0).postedBody =
      some (.dict [("email", .str "e"), ("secret", .str "sec"),
        ("url", .str "http://u"), ("answer", .dict [("a", .num 1 1)])]) :=
  ⟨(secret_forwarded envW10 (some bodyW) 0 0
      [("email", .str "e"), ("secret", .str "sec"), ("url", .str "http://u")]
      "sec" "http://u" ⟨some "eyJhIjoxfQ==", some .null, ""⟩
      [("answer", .dict [("a", .num 1 1)])] rfl rfl rfl rfl rfl).1,
   (secret_forwarded envW10 (some bodyW) 0 0
      [("email", .str "e"), ("secret", .str "sec"), ("url", .str "http://u")]
      "sec" "http://u" ⟨some "eyJhIjoxfQ==", some .null, ""⟩
      [("answer", .dict [("a", .num 1 1)])] rfl rfl rfl rfl rfl).2.2 rfl,
   rfl⟩
